import Mathlib

/-!
Shallow embedding of `funcs/func_periodic_hook.c` (periodic dialplan hooks).

Timestamps are modelled as integer milliseconds.  C `unsigned int`
arithmetic is modelled as natural numbers reduced modulo `2 ^ 32`.  The
channel datastore list is modelled as an association list keyed by the
decimal uid string of each hook.  External collaborators that the module
calls (time utilities, keyed channel storage, argument splitting) are
modelled from their interface contracts in the specification; every
definition named after a C symbol follows that symbol line by line.
-/

namespace FuncPeriodicHook

/-- Modulus of C `unsigned int` arithmetic (32 bits). -/
def U32 : Nat := 2 ^ 32

/-- Embedding of `struct hook_state` (func_periodic_hook.c:109-128) together
with the pieces of the embedded `ast_audiohook` that the module reads:
`statusDone` models `audiohook.status == AST_AUDIOHOOK_STATUS_DONE`, and
`attached` models membership of the audiohook in the channel audiohook list.
`last_hook` is the `struct timeval last_hook` at millisecond resolution. -/
structure HookState where
  statusDone : Bool
  attached : Bool
  interval : Nat
  last_hook : Int
  hook_context : String
  hook_exten : String
  hook_id : Nat
  disabled : Bool
deriving Repr, DecidableEq

/-- Modelled from the spec: the external time utility `ast_tvdiff_ms` --
millisecond-resolution elapsed time between two timestamps (spec section 4.3,
millisecond-resolution elapsed time derived from whole-second interval). -/
def ast_tvdiff_ms (a b : Int) : Int := a - b

/-- The threshold `state->interval * 1000` of func_periodic_hook.c:263,
computed in C `unsigned int` arithmetic, hence reduced modulo `2 ^ 32`. -/
def interval_threshold (interval : Nat) : Nat := (interval * 1000) % U32

/-- Result of one `hook_callback` invocation: the return value, the hook state
after the call, whether `do_hook` was invoked (a launch was attempted), and
whether the launch-failure warning was logged. -/
structure CbResult where
  ret : Int
  state : HookState
  launched : Bool
  warned : Bool
deriving Repr, DecidableEq

/-- Embedding of `hook_callback` (func_periodic_hook.c:251-275).  The argument
`do_hook_res` is the value `do_hook` (lines 229-249) would return if invoked:
0 when the detached launch thread was created, nonzero (-1 or a pthread error)
when allocation or thread creation failed. -/
def hook_callback (state : HookState) (now : Int) (do_hook_res : Int) : CbResult :=
  if state.statusDone || state.disabled then
    ⟨0, state, false, false⟩
  else if ast_tvdiff_ms now state.last_hook > (interval_threshold state.interval : Int) then
    ⟨do_hook_res, { state with last_hook := now }, true, decide (do_hook_res ≠ 0)⟩
  else
    ⟨0, state, false, false⟩

/-- Folding `hook_callback` over a sequence of frames, each given as a pair of
arrival time in milliseconds and the result `do_hook` would return there;
yields the final hook state and the number of launches attempted. -/
def run_frames : HookState → List (Int × Int) → HookState × Nat
  | s, [] => (s, 0)
  | s, (t, d) :: rest =>
    let r := hook_callback s t d
    let p := run_frames r.state rest
    (p.1, (if r.launched then 1 else 0) + p.2)

/-- The channel datastore list: association list from datastore uid (the
decimal form of the hook id, as written by `init_hook` line 305) to the hook
state stored in that datastore. -/
abbrev Channel : Type := List (String × HookState)

/-- Modelled from the spec: keyed session-scoped storage lookup
(`ast_channel_datastore_find` with the `hook_datastore` info), spec section 6:
`session.storage.find(key)` returns the slot stored under exactly that key. -/
def datastore_find : Channel → String → Option HookState
  | [], _ => none
  | (k, s) :: rest, uid => if k = uid then some s else datastore_find rest uid

/-- Updating in place the state held by the first datastore whose uid matches,
as the C code does through the pointer returned by the datastore lookup. -/
def set_state_first : Channel → String → (HookState → HookState) → Channel
  | [], _, _ => []
  | (k, s) :: rest, uid, f =>
    if k = uid then (k, f s) :: rest else (k, s) :: set_state_first rest uid f

/-- Modelled from the spec: the argument splitting of
`AST_STANDARD_APP_ARGS(args, parse)` on commas (quoting and nesting of the
full Asterisk separator are not exercised by this module's arguments). -/
def split_fields : List Char → List (List Char)
  | [] => [[]]
  | c :: rest =>
    let r := split_fields rest
    if c = ',' then [] :: r
    else (c :: r.headD []) :: r.tail

/-- The comma-separated fields of the function argument string. -/
def app_args (data : String) : List String :=
  (split_fields data.toList).map fun cs => ⟨cs⟩

/-- Modelled from the spec: `sscanf(args.interval, "%30u", &interval)` --
skip leading whitespace, then read at most 30 decimal digits; fails when no
digit is present; the value is reduced to C `unsigned int` range. -/
def scan_u30 (s : String) : Option Nat :=
  let cs := s.toList.dropWhile fun c => c = ' ' || c = '\t' || c = '\n'
  let ds := (cs.takeWhile Char.isDigit).take 30
  if ds.isEmpty then none
  else some ((ds.foldl (fun a c => a * 10 + (c.toNat - 48)) 0) % U32)

/-- Embedding of `hook_state_alloc` (func_periodic_hook.c:277-296): the state
is zero-allocated (`last_hook = {0, 0}`, `disabled = 0`), the audiohook is
initialised (status not DONE) with the manipulate callback set. -/
def hook_state_alloc (ctx ext : String) (interval hook_id : Nat) : HookState :=
  { statusDone := false, attached := false, interval := interval, last_hook := 0,
    hook_context := ctx, hook_exten := ext, hook_id := hook_id, disabled := false }

/-- Embedding of `init_hook` (func_periodic_hook.c:298-323): build the uid as
the decimal form of the hook id (at most 31 characters), allocate the state,
add the datastore to the channel and attach the audiohook; returns 0. -/
def init_hook (chan : Channel) (ctx ext : String) (interval hook_id : Nat) :
    Int × Channel :=
  let uid : String := ⟨(Nat.repr hook_id).toList.take 31⟩
  let state := { hook_state_alloc ctx ext interval hook_id with attached := true }
  (0, (uid, state) :: chan)

/-- Embedding of `hook_on` (func_periodic_hook.c:325-352): split the argument
string, reject a missing, unparseable or zero interval, then reject an empty
context or extension, and otherwise delegate to `init_hook`. -/
def hook_on (chan : Channel) (data : String) (hook_id : Nat) : Int × Channel :=
  match scan_u30 ((app_args data).getD 2 "") with
  | none => (-1, chan)
  | some interval =>
    if interval = 0 then (-1, chan)
    else if (app_args data).getD 0 "" = "" ∨ (app_args data).getD 1 "" = "" then (-1, chan)
    else init_hook chan ((app_args data).getD 0 "") ((app_args data).getD 1 "")
      interval hook_id

/-- Embedding of `hook_off` (func_periodic_hook.c:354-378): an empty hook id
or a missing datastore fails with -1 and no change; otherwise the found state
has its `disabled` flag set and 0 is returned. -/
def hook_off (chan : Channel) (hook_id : String) : Int × Channel :=
  if hook_id = "" then (-1, chan)
  else
    match datastore_find chan hook_id with
    | none => (-1, chan)
    | some _ => (0, set_state_first chan hook_id fun s => { s with disabled := true })

/-- Embedding of `hook_re_enable` (func_periodic_hook.c:396-420): symmetric to
`hook_off`, clearing the `disabled` flag. -/
def hook_re_enable (chan : Channel) (uid : String) : Int × Channel :=
  if uid = "" then (-1, chan)
  else
    match datastore_find chan uid with
    | none => (-1, chan)
    | some _ => (0, set_state_first chan uid fun s => { s with disabled := false })

/-- Result of `hook_read`: the return value, the output buffer (`none` when
the buffer was not written), the new value of `global_hook_id`, and the
channel (`none` models the NULL-channel early return). -/
structure ReadResult where
  res : Int
  buf : Option String
  gid : Nat
  chan : Option Channel

/-- Embedding of `hook_read` (func_periodic_hook.c:380-394): a NULL channel
returns -1 untouched; otherwise `global_hook_id` is atomically fetched and
incremented (32-bit unsigned), the fetched id is written in decimal into the
output buffer of capacity `len` (truncated by `snprintf` to `len - 1`
characters), and only then is `hook_on` run on the arguments. -/
def hook_read (g : Nat) (chan : Option Channel) (data : String) (len : Nat) : ReadResult :=
  match chan with
  | none => ⟨-1, none, g, none⟩
  | some ch =>
    ⟨(hook_on ch data g).1, some ⟨(Nat.repr g).toList.take (len - 1)⟩,
      (g + 1) % U32, some (hook_on ch data g).2⟩

/-- Iterated `hook_read` calls threading the global id counter and the
channel, collecting the hook id consumed by each call. -/
def run_creates (g : Nat) (chan : Channel) (data : String) (len : Nat) : Nat → List Nat
  | 0 => []
  | Nat.succ n =>
    g :: run_creates (hook_read g (some chan) data len).gid
      ((hook_read g (some chan) data len).chan.getD chan) data len n

theorem run_frames_cons (s : HookState) (t d : Int) (rest : List (Int × Int)) :
    run_frames s ((t, d) :: rest) =
      ((run_frames (hook_callback s t d).state rest).1,
        (if (hook_callback s t d).launched then 1 else 0)
          + (run_frames (hook_callback s t d).state rest).2) := rfl

theorem hook_callback_done_or_disabled (s : HookState) (now d : Int)
    (h : s.statusDone = true ∨ s.disabled = true) :
    hook_callback s now d = ⟨0, s, false, false⟩ := by
  rcases h with h | h <;> simp [hook_callback, h]

theorem hook_callback_fire (s : HookState) (now d : Int)
    (h1 : s.statusDone = false) (h2 : s.disabled = false)
    (h3 : (interval_threshold s.interval : Int) < now - s.last_hook) :
    hook_callback s now d = ⟨d, { s with last_hook := now }, true, decide (d ≠ 0)⟩ := by
  simp [hook_callback, h1, h2, ast_tvdiff_ms, h3]

theorem hook_callback_skip (s : HookState) (now d : Int)
    (h1 : s.statusDone = false) (h2 : s.disabled = false)
    (h3 : ¬ (interval_threshold s.interval : Int) < now - s.last_hook) :
    hook_callback s now d = ⟨0, s, false, false⟩ := by
  simp [hook_callback, h1, h2, ast_tvdiff_ms, h3]

theorem run_frames_cons_fire (s : HookState) (t d : Int) (rest : List (Int × Int))
    (h1 : s.statusDone = false) (h2 : s.disabled = false)
    (h3 : (interval_threshold s.interval : Int) < t - s.last_hook) :
    run_frames s ((t, d) :: rest) =
      ((run_frames { s with last_hook := t } rest).1,
        1 + (run_frames { s with last_hook := t } rest).2) := by
  rw [run_frames_cons, hook_callback_fire s t d h1 h2 h3]
  rfl

theorem run_frames_cons_skip (s : HookState) (t d : Int) (rest : List (Int × Int))
    (h1 : s.statusDone = false) (h2 : s.disabled = false)
    (h3 : ¬ (interval_threshold s.interval : Int) < t - s.last_hook) :
    run_frames s ((t, d) :: rest) = run_frames s rest := by
  rw [run_frames_cons, hook_callback_skip s t d h1 h2 h3]
  simp

theorem run_frames_disabled (s : HookState) (fs : List (Int × Int))
    (h : s.disabled = true) : run_frames s fs = (s, 0) := by
  induction fs with
  | nil => rfl
  | cons p rest ih =>
    obtain ⟨t, d⟩ := p
    rw [run_frames_cons, hook_callback_done_or_disabled s t d (Or.inr h)]
    simp [ih]

/-- C1 counterexample: on a frame where the interval has elapsed and `do_hook`
fails (returns -1), `hook_callback` does attempt the launch and logs the
warning, but its return value is -1, not the claimed success value 0: line 264
stores the `do_hook` result in `res` and line 274 returns `res`. -/
theorem hook_callback_returns_failure_cex :
    (hook_callback ⟨false, true, 1, 0, "hooks", "beep", 0, false⟩ 2000 (-1)).launched = true
    ∧ (hook_callback ⟨false, true, 1, 0, "hooks", "beep", 0, false⟩ 2000 (-1)).warned = true
    ∧ (hook_callback ⟨false, true, 1, 0, "hooks", "beep", 0, false⟩ 2000 (-1)).ret = -1
    ∧ ¬ (hook_callback ⟨false, true, 1, 0, "hooks", "beep", 0, false⟩ 2000 (-1)).ret = 0 := by
  decide

/-- C1 amended: on every frame of an enabled, non-finished hook on which the
interval has elapsed and `do_hook` fails, the failure is logged as a warning,
and `hook_callback` returns the nonzero `do_hook` result to the media
pipeline (the failure return value is propagated, not replaced by 0). -/
theorem hook_callback_warns_and_returns_do_hook_res (s : HookState) (now d : Int)
    (h1 : s.statusDone = false) (h2 : s.disabled = false)
    (h3 : (interval_threshold s.interval : Int) < now - s.last_hook)
    (hd : d ≠ 0) :
    (hook_callback s now d).warned = true
    ∧ (hook_callback s now d).ret = d
    ∧ (hook_callback s now d).ret ≠ 0 := by
  rw [hook_callback_fire s now d h1 h2 h3]
  exact ⟨by simpa using hd, rfl, hd⟩

/-- Witness for the C1 amended theorem at a concrete input. -/
theorem hook_callback_warns_and_returns_do_hook_res_witness :
    (hook_callback ⟨false, true, 1, 0, "hooks", "beep", 0, false⟩ 2000 (-1)).warned = true
    ∧ (hook_callback ⟨false, true, 1, 0, "hooks", "beep", 0, false⟩ 2000 (-1)).ret = -1
    ∧ (hook_callback ⟨false, true, 1, 0, "hooks", "beep", 0, false⟩ 2000 (-1)).ret ≠ 0 :=
  hook_callback_warns_and_returns_do_hook_res
    ⟨false, true, 1, 0, "hooks", "beep", 0, false⟩ 2000 (-1)
    rfl rfl (by decide) (by decide)

/-- C2 counterexample: the launch threshold is not `interval_seconds`
converted to milliseconds.  For a hook with `interval = 4294968` seconds the
32-bit product wraps to 704, so a frame arriving 1000 ms after the last fire
triggers a launch although 1000 ms does not exceed 4294968000 ms. -/
theorem hook_callback_nominal_threshold_cex :
    (hook_callback ⟨false, true, 4294968, 0, "hooks", "beep", 1, false⟩ 1000 0).launched = true
    ∧ ¬ ((4294968 * 1000 : Int) < 1000 - 0) := by
  decide

/-- C2 amended: for every invocation on an enabled, non-finished hook, a launch
is triggered exactly when the millisecond elapsed time strictly exceeds
`interval * 1000` computed in 32-bit unsigned arithmetic (which equals the
nominal `interval_seconds` in milliseconds whenever that product is below
`2 ^ 32`), and in that case `last_hook` is set to `now` whether or not the
launch attempt succeeded; otherwise the state is unchanged. -/
theorem hook_callback_fires_iff_elapsed_gt_threshold (s : HookState) (now d : Int)
    (h1 : s.statusDone = false) (h2 : s.disabled = false) :
    ((hook_callback s now d).launched = true
      ↔ (interval_threshold s.interval : Int) < now - s.last_hook)
    ∧ (s.interval * 1000 < U32 →
        ((hook_callback s now d).launched = true
          ↔ ((s.interval * 1000 : Nat) : Int) < now - s.last_hook))
    ∧ ((hook_callback s now d).launched = true →
        (hook_callback s now d).state = { s with last_hook := now })
    ∧ ((hook_callback s now d).launched = false → (hook_callback s now d).state = s) := by
  have hthr : ∀ h4 : s.interval * 1000 < U32,
      interval_threshold s.interval = s.interval * 1000 := fun h4 =>
    Nat.mod_eq_of_lt h4
  by_cases hc : (interval_threshold s.interval : Int) < now - s.last_hook
  · rw [hook_callback_fire s now d h1 h2 hc]
    refine ⟨by simpa using hc, fun h4 => by rw [← hthr h4]; simpa using hc,
      fun _ => rfl, fun hfalse => by simp at hfalse⟩
  · rw [hook_callback_skip s now d h1 h2 hc]
    refine ⟨by simpa using hc, fun h4 => by rw [← hthr h4]; simpa using hc,
      fun htrue => by simp at htrue, fun _ => rfl⟩

/-- Witness for the C2 amended theorem at a concrete input, with every inner
hypothesis discharged. -/
theorem hook_callback_fires_iff_elapsed_gt_threshold_witness :
    ((hook_callback ⟨false, true, 2, 0, "hooks", "beep", 1, false⟩ 2001 (-1)).launched = true
      ↔ (interval_threshold 2 : Int) < 2001 - 0)
    ∧ ((hook_callback ⟨false, true, 2, 0, "hooks", "beep", 1, false⟩ 2001 (-1)).launched = true
        ↔ ((2 * 1000 : Nat) : Int) < 2001 - 0)
    ∧ (hook_callback ⟨false, true, 2, 0, "hooks", "beep", 1, false⟩ 2001 (-1)).state =
        ⟨false, true, 2, 2001, "hooks", "beep", 1, false⟩ :=
  ⟨(hook_callback_fires_iff_elapsed_gt_threshold
      ⟨false, true, 2, 0, "hooks", "beep", 1, false⟩ 2001 (-1) rfl rfl).1,
   (hook_callback_fires_iff_elapsed_gt_threshold
      ⟨false, true, 2, 0, "hooks", "beep", 1, false⟩ 2001 (-1) rfl rfl).2.1 (by decide),
   (hook_callback_fires_iff_elapsed_gt_threshold
      ⟨false, true, 2, 0, "hooks", "beep", 1, false⟩ 2001 (-1) rfl rfl).2.2.1 (by decide)⟩

/-- C3: if the audiohook status is DONE or the hook is disabled, the callback
is a no-op returning 0 with no launch and an unchanged state; and over any
sequence of frames processed while the hook is disabled, no launch at all is
attempted and the state never changes, regardless of elapsed time. -/
theorem hook_callback_noop_when_done_or_disabled :
    (∀ (s : HookState) (now d : Int), s.statusDone = true ∨ s.disabled = true →
      hook_callback s now d = ⟨0, s, false, false⟩)
    ∧ (∀ (s : HookState) (fs : List (Int × Int)), s.disabled = true →
      run_frames s fs = (s, 0)) :=
  ⟨hook_callback_done_or_disabled, run_frames_disabled⟩

/-- Witness for the C3 theorem at concrete inputs: a disabled hook ignores a
single frame and a whole stream of frames arriving long after the interval. -/
theorem hook_callback_noop_when_done_or_disabled_witness :
    hook_callback ⟨false, true, 5, 0, "hooks", "beep", 2, true⟩ 999999 0 =
      ⟨0, ⟨false, true, 5, 0, "hooks", "beep", 2, true⟩, false, false⟩
    ∧ run_frames ⟨false, true, 5, 0, "hooks", "beep", 2, true⟩
        [(100000, 0), (200000, 0), (300000, 0)] =
      (⟨false, true, 5, 0, "hooks", "beep", 2, true⟩, 0) :=
  ⟨hook_callback_noop_when_done_or_disabled.1 _ _ _ (Or.inr rfl),
    hook_callback_noop_when_done_or_disabled.2 _ _ rfl⟩

/-- C9: the threshold used by the frame callback is `interval * 1000` reduced
modulo `2 ^ 32`, and for every hook whose interval exceeds 4294967 seconds the
product wraps: the threshold actually compared against the elapsed time is
strictly smaller than the nominal `interval * 1000`. -/
theorem interval_threshold_wraps_past_4294967 (s : HookState) (now d : Int)
    (h1 : s.statusDone = false) (h2 : s.disabled = false)
    (h3 : 4294967 < s.interval) :
    ((hook_callback s now d).launched = true
      ↔ (interval_threshold s.interval : Int) < now - s.last_hook)
    ∧ interval_threshold s.interval = s.interval * 1000 % U32
    ∧ interval_threshold s.interval < s.interval * 1000 := by
  have hbig : U32 < s.interval * 1000 := by
    have h4 : 4294968 ≤ s.interval := h3
    have : 4294968 * 1000 ≤ s.interval * 1000 := Nat.mul_le_mul_right 1000 h4
    have hU : U32 < 4294968 * 1000 := by norm_num [U32]
    exact lt_of_lt_of_le hU this
  refine ⟨?_, rfl, lt_trans (Nat.mod_lt _ (by norm_num [U32])) hbig⟩
  by_cases hc : (interval_threshold s.interval : Int) < now - s.last_hook
  · rw [hook_callback_fire s now d h1 h2 hc]; simpa using hc
  · rw [hook_callback_skip s now d h1 h2 hc]; simpa using hc

/-- Witness for the C9 theorem at a concrete input: interval 4294968 wraps to
a 704 ms threshold, so a frame 1000 ms after the last fire launches. -/
theorem interval_threshold_wraps_past_4294967_witness :
    ((hook_callback ⟨false, true, 4294968, 0, "hooks", "beep", 3, false⟩ 1000 0).launched = true
      ↔ (interval_threshold 4294968 : Int) < 1000 - 0)
    ∧ interval_threshold 4294968 = 4294968 * 1000 % U32
    ∧ interval_threshold 4294968 < 4294968 * 1000 :=
  interval_threshold_wraps_past_4294967
    ⟨false, true, 4294968, 0, "hooks", "beep", 3, false⟩ 1000 0 rfl rfl (by decide)

theorem run_frames_chain (fs : List (Int × Int)) :
    ∀ (s : HookState) (a b : Int),
      s.statusDone = false → s.disabled = false →
      (∀ p ∈ fs, a ≤ p.1 ∧ p.1 ≤ b) →
      (((run_frames s fs).2 = 0 ∧ (run_frames s fs).1 = s) ∨
        (1 ≤ (run_frames s fs).2 ∧ (run_frames s fs).1.last_hook ≤ b ∧
          s.last_hook
              + ((run_frames s fs).2 : Int) * ((interval_threshold s.interval : Int) + 1)
            ≤ (run_frames s fs).1.last_hook ∧
          a + (((run_frames s fs).2 : Int) - 1) * ((interval_threshold s.interval : Int) + 1)
            ≤ (run_frames s fs).1.last_hook)) := by
  induction fs with
  | nil =>
    intro s a b h1 h2 hb
    exact Or.inl ⟨rfl, rfl⟩
  | cons q rest ih =>
    obtain ⟨t, d⟩ := q
    intro s a b h1 h2 hb
    have hbt := hb (t, d) (List.mem_cons_self _ _)
    have hbrest : ∀ p ∈ rest, a ≤ p.1 ∧ p.1 ≤ b := fun p hp => hb p (List.mem_cons_of_mem _ hp)
    by_cases hc : (interval_threshold s.interval : Int) < t - s.last_hook
    · rw [run_frames_cons_fire s t d rest h1 h2 hc]
      have ih1 := ih { s with last_hook := t } a b h1 h2 hbrest
      dsimp only at ih1 ⊢
      rcases ih1 with ⟨hn0, hs0⟩ | ⟨hn1, hb', hch, hach⟩
      · rw [hn0, hs0]
        refine Or.inr ⟨by omega, hbt.2, ?_, ?_⟩
        · push_cast
          linarith [hc]
        · push_cast
          linarith [hbt.1]
      · refine Or.inr ⟨by omega, hb', ?_, ?_⟩
        · push_cast
          linarith [hc, hch]
        · push_cast
          linarith [hbt.1, hch]
    · rw [run_frames_cons_skip s t d rest h1 h2 hc]
      exact ih s a b h1 h2 hbrest

theorem run_frames_zero_count (fs : List (Int × Int)) :
    ∀ s : HookState, s.statusDone = false → s.disabled = false →
      (run_frames s fs).2 = 0 →
      ∀ p ∈ fs, ¬ (interval_threshold s.interval : Int) < p.1 - s.last_hook := by
  induction fs with
  | nil =>
    intro s _ _ _ p hp
    cases hp
  | cons q rest ih =>
    obtain ⟨t, d⟩ := q
    intro s h1 h2 h0 p hp
    by_cases hc : (interval_threshold s.interval : Int) < t - s.last_hook
    · rw [run_frames_cons_fire s t d rest h1 h2 hc] at h0
      simp at h0
    · rw [run_frames_cons_skip s t d rest h1 h2 hc] at h0
      rcases List.mem_cons.mp hp with hpeq | hpmem
      · cases hpeq
        exact hc
      · exact ih s h1 h2 h0 p hpmem

/-- C4 counterexample: a hook with interval 1 second, enabled and non-finished
throughout, last fire at the window start 0, and frames at 0, 500 and 1000 ms
(a window T = 1000 ms = interval seconds, so T is at least the interval):
zero launches occur, because the comparison at line 263 is strict. -/
theorem launch_count_lower_bound_cex :
    (run_frames ⟨false, true, 1, 0, "hooks", "beep", 4, false⟩
        [(0, 0), (500, 0), (1000, 0)]).2 = 0
    ∧ ((1000 : Int) - 0 ≥ 1 * 1000) := by
  decide

/-- C4 amended: for every hook with `interval > 0` and `interval * 1000` below
`2 ^ 32`, enabled and non-finished, and every frame sequence inside a window
of length T ms, the number of launches is at most `T / (interval * 1000) + 1`;
frames inside one interval (T at most the interval) collapse to at most one
launch; and at least one launch occurs when T strictly exceeds the interval,
the last fire time at the window start is at most the window start, and a
frame arrives at the window end. -/
theorem launch_count_bounds (s : HookState) (frames : List (Int × Int)) (a T : Int)
    (h1 : s.statusDone = false) (h2 : s.disabled = false)
    (h3 : 0 < s.interval) (h4 : s.interval * 1000 < U32)
    (h5 : ∀ p ∈ frames, a ≤ p.1 ∧ p.1 ≤ a + T) (h6 : 0 ≤ T) :
    (((run_frames s frames).2 : Int) ≤ T / ((s.interval : Int) * 1000) + 1)
    ∧ (T ≤ (s.interval : Int) * 1000 → (run_frames s frames).2 ≤ 1)
    ∧ (s.last_hook ≤ a → (s.interval : Int) * 1000 < T →
        (∃ p ∈ frames, p.1 = a + T) → 1 ≤ (run_frames s frames).2) := by
  have hIeq : (interval_threshold s.interval : Int) = (s.interval : Int) * 1000 := by
    rw [interval_threshold, Nat.mod_eq_of_lt h4]
    push_cast
    ring
  have hIpos : (0 : Int) < (s.interval : Int) * 1000 := by
    have hp : (1 : Int) ≤ (s.interval : Int) := by exact_mod_cast h3
    nlinarith
  have hchain := run_frames_chain frames s a (a + T) h1 h2 h5
  rw [hIeq] at hchain
  refine ⟨?_, ?_, ?_⟩
  · rcases hchain with ⟨hn0, _⟩ | ⟨hn1, hb', hch, hach⟩
    · rw [hn0]
      have : (0 : Int) ≤ T / ((s.interval : Int) * 1000) :=
        Int.ediv_nonneg h6 (le_of_lt hIpos)
      push_cast
      linarith
    · have hTb : (((run_frames s frames).2 : Int) - 1)
          * ((s.interval : Int) * 1000 + 1) ≤ T := by linarith [hach, hb']
      have hmono : (((run_frames s frames).2 : Int) - 1) * ((s.interval : Int) * 1000)
          ≤ (((run_frames s frames).2 : Int) - 1) * ((s.interval : Int) * 1000 + 1) := by
        have hnn : (0 : Int) ≤ ((run_frames s frames).2 : Int) - 1 := by
          have : (1 : Int) ≤ ((run_frames s frames).2 : Int) := by exact_mod_cast hn1
          linarith
        nlinarith
      have hdiv : ((run_frames s frames).2 : Int) - 1 ≤ T / ((s.interval : Int) * 1000) :=
        (Int.le_ediv_iff_mul_le hIpos).mpr (le_trans hmono hTb)
      linarith
  · intro hTI
    rcases hchain with ⟨hn0, _⟩ | ⟨hn1, hb', hch, hach⟩
    · omega
    · by_contra hcon
      push_neg at hcon
      have h2n : (2 : Int) ≤ ((run_frames s frames).2 : Int) := by exact_mod_cast hcon
      have hTb : (((run_frames s frames).2 : Int) - 1)
          * ((s.interval : Int) * 1000 + 1) ≤ T := by linarith [hach, hb']
      nlinarith
  · intro hlast hTI hex
    by_contra hcon
    push_neg at hcon
    have hn0 : (run_frames s frames).2 = 0 := by omega
    obtain ⟨p, hp, hpeq⟩ := hex
    have := run_frames_zero_count frames s h1 h2 hn0 p hp
    rw [hIeq, hpeq] at this
    apply this
    linarith

/-- Witness for the C4 amended theorem at concrete inputs: interval 1 s with
frames at 0 and 1001 ms (upper and lower bound parts), and with frames at 0
and 400 ms inside a 500 ms window (collapse part). -/
theorem launch_count_bounds_witness :
    (((run_frames ⟨false, true, 1, 0, "hooks", "beep", 4, false⟩
          [(0, 0), (1001, 0)]).2 : Int) ≤ 1001 / (((1 : Nat) : Int) * 1000) + 1)
    ∧ (1 ≤ (run_frames ⟨false, true, 1, 0, "hooks", "beep", 4, false⟩
          [(0, 0), (1001, 0)]).2)
    ∧ ((run_frames ⟨false, true, 1, 0, "hooks", "beep", 4, false⟩
          [(0, 0), (400, 0)]).2 ≤ 1) :=
  ⟨(launch_count_bounds ⟨false, true, 1, 0, "hooks", "beep", 4, false⟩
      [(0, 0), (1001, 0)] 0 1001 rfl rfl (by decide) (by decide)
      (by decide) (by decide)).1,
   (launch_count_bounds ⟨false, true, 1, 0, "hooks", "beep", 4, false⟩
      [(0, 0), (1001, 0)] 0 1001 rfl rfl (by decide) (by decide)
      (by decide) (by decide)).2.2 (by decide) (by decide) (by decide),
   (launch_count_bounds ⟨false, true, 1, 0, "hooks", "beep", 4, false⟩
      [(0, 0), (400, 0)] 0 500 rfl rfl (by decide) (by decide)
      (by decide) (by decide)).2.1 (by decide)⟩

theorem datastore_find_set_state_first (chan : Channel) (uid : String)
    (f : HookState → HookState) :
    datastore_find (set_state_first chan uid f) uid = (datastore_find chan uid).map f := by
  induction chan with
  | nil => rfl
  | cons p rest ih =>
    obtain ⟨k, s⟩ := p
    by_cases hk : k = uid
    · simp [set_state_first, datastore_find, hk]
    · simp [set_state_first, datastore_find, hk, ih]

theorem set_state_first_keys (chan : Channel) (uid : String) (f : HookState → HookState) :
    (set_state_first chan uid f).map Prod.fst = chan.map Prod.fst := by
  induction chan with
  | nil => rfl
  | cons p rest ih =>
    obtain ⟨k, s⟩ := p
    by_cases hk : k = uid <;> simp [set_state_first, hk, ih]

theorem set_state_first_mem (chan : Channel) (uid : String) (f : HookState → HookState)
    (k : String) (t : HookState) (hk : k ≠ uid) :
    (k, t) ∈ set_state_first chan uid f ↔ (k, t) ∈ chan := by
  induction chan with
  | nil => simp [set_state_first]
  | cons p rest ih =>
    obtain ⟨k0, s0⟩ := p
    by_cases hk0 : k0 = uid
    · simp only [set_state_first, if_pos hk0, List.mem_cons]
      constructor
      · rintro (heq | hmem)
        · exact absurd (congrArg Prod.fst heq) (by simpa [hk0] using hk)
        · exact Or.inr hmem
      · rintro (heq | hmem)
        · exact absurd (congrArg Prod.fst heq) (by simpa [hk0] using hk)
        · exact Or.inr hmem
    · simp only [set_state_first, if_neg hk0, List.mem_cons, ih]

theorem hook_off_not_found (chan : Channel) (uid : String)
    (h : uid = "" ∨ datastore_find chan uid = none) :
    hook_off chan uid = (-1, chan) := by
  rcases h with h | h
  · simp [hook_off, h]
  · by_cases h0 : uid = ""
    · simp [hook_off, h0]
    · simp [hook_off, h0, h]

theorem hook_re_enable_not_found (chan : Channel) (uid : String)
    (h : uid = "" ∨ datastore_find chan uid = none) :
    hook_re_enable chan uid = (-1, chan) := by
  rcases h with h | h
  · simp [hook_re_enable, h]
  · by_cases h0 : uid = ""
    · simp [hook_re_enable, h0]
    · simp [hook_re_enable, h0, h]

theorem hook_off_found (chan : Channel) (uid : String) (s : HookState)
    (h0 : uid ≠ "") (h1 : datastore_find chan uid = some s) :
    hook_off chan uid =
      (0, set_state_first chan uid fun st => { st with disabled := true }) := by
  simp [hook_off, h0, h1]

theorem hook_re_enable_found (chan : Channel) (uid : String) (s : HookState)
    (h0 : uid ≠ "") (h1 : datastore_find chan uid = some s) :
    hook_re_enable chan uid =
      (0, set_state_first chan uid fun st => { st with disabled := false }) := by
  simp [hook_re_enable, h0, h1]

theorem hook_on_scan_none (chan : Channel) (data : String) (hook_id : Nat)
    (h : scan_u30 ((app_args data).getD 2 "") = none) :
    hook_on chan data hook_id = (-1, chan) := by
  unfold hook_on
  rw [h]

theorem hook_on_scan_some (chan : Channel) (data : String) (hook_id k : Nat)
    (h : scan_u30 ((app_args data).getD 2 "") = some k) :
    hook_on chan data hook_id =
      (if k = 0 then (-1, chan)
       else if (app_args data).getD 0 "" = "" ∨ (app_args data).getD 1 "" = "" then (-1, chan)
       else init_hook chan ((app_args data).getD 0 "") ((app_args data).getD 1 "")
         k hook_id) := by
  unfold hook_on
  rw [h]

/-- C5: hooking on fails with -1 whenever the interval field is missing or not
a parseable unsigned integer, or parses to zero, or the context or extension
field is empty; in every such case the channel is returned unchanged -- no
hook state is allocated and no datastore entry is created. -/
theorem hook_on_invalid_args_fail_without_state (chan : Channel) (data : String)
    (hook_id : Nat)
    (h : scan_u30 ((app_args data).getD 2 "") = none
       ∨ scan_u30 ((app_args data).getD 2 "") = some 0
       ∨ (app_args data).getD 0 "" = ""
       ∨ (app_args data).getD 1 "" = "") :
    hook_on chan data hook_id = (-1, chan) := by
  rcases h with h | h | h | h
  · exact hook_on_scan_none chan data hook_id h
  · rw [hook_on_scan_some chan data hook_id 0 h, if_pos rfl]
  · cases hscan : scan_u30 ((app_args data).getD 2 "") with
    | none => exact hook_on_scan_none chan data hook_id hscan
    | some k =>
      rw [hook_on_scan_some chan data hook_id k hscan]
      by_cases hk : k = 0
      · rw [if_pos hk]
      · rw [if_neg hk, if_pos (Or.inl h)]
  · cases hscan : scan_u30 ((app_args data).getD 2 "") with
    | none => exact hook_on_scan_none chan data hook_id hscan
    | some k =>
      rw [hook_on_scan_some chan data hook_id k hscan]
      by_cases hk : k = 0
      · rw [if_pos hk]
      · rw [if_neg hk, if_pos (Or.inr h)]

/-- Witness for the C5 theorem at concrete inputs: empty context, empty
extension, zero interval, and unparseable interval all fail with the channel
unchanged. -/
theorem hook_on_invalid_args_fail_without_state_witness :
    hook_on [] ",beep,5" 9 = (-1, [])
    ∧ hook_on [] "hooks,,5" 9 = (-1, [])
    ∧ hook_on [] "hooks,beep,0" 9 = (-1, [])
    ∧ hook_on [] "hooks,beep,x" 9 = (-1, []) :=
  ⟨hook_on_invalid_args_fail_without_state [] ",beep,5" 9
      (Or.inr (Or.inr (Or.inl (by decide)))),
   hook_on_invalid_args_fail_without_state [] "hooks,,5" 9
      (Or.inr (Or.inr (Or.inr (by decide)))),
   hook_on_invalid_args_fail_without_state [] "hooks,beep,0" 9
      (Or.inr (Or.inl (by decide))),
   hook_on_invalid_args_fail_without_state [] "hooks,beep,x" 9
      (Or.inl (by decide))⟩

/-- C6: disable and re-enable on a hook id with no datastore slot (empty id or
not found) both fail with -1 and leave the channel -- hence every existing
hook state -- unchanged; on an existing slot, disable returns 0 and sets the
`disabled` flag, and re-enable returns 0 and clears it. -/
theorem hook_toggle_not_found_and_found (chan : Channel) (uid : String) :
    ((uid = "" ∨ datastore_find chan uid = none) →
      hook_off chan uid = (-1, chan) ∧ hook_re_enable chan uid = (-1, chan))
    ∧ (∀ s : HookState, uid ≠ "" → datastore_find chan uid = some s →
      (hook_off chan uid).1 = 0
      ∧ datastore_find (hook_off chan uid).2 uid = some { s with disabled := true }
      ∧ (hook_re_enable chan uid).1 = 0
      ∧ datastore_find (hook_re_enable chan uid).2 uid
          = some { s with disabled := false }) := by
  constructor
  · intro h
    exact ⟨hook_off_not_found chan uid h, hook_re_enable_not_found chan uid h⟩
  · intro s h0 h1
    rw [hook_off_found chan uid s h0 h1, hook_re_enable_found chan uid s h0 h1]
    dsimp only
    rw [datastore_find_set_state_first, datastore_find_set_state_first, h1]
    exact ⟨rfl, rfl, rfl, rfl⟩

/-- Witness for the C6 theorem at concrete inputs: id "7" is absent from a
channel holding hook "3", and id "3" is present. -/
theorem hook_toggle_not_found_and_found_witness :
    (hook_off [("3", ⟨false, true, 5, 0, "hooks", "beep", 3, false⟩)] "7"
        = (-1, [("3", ⟨false, true, 5, 0, "hooks", "beep", 3, false⟩)])
      ∧ hook_re_enable [("3", ⟨false, true, 5, 0, "hooks", "beep", 3, false⟩)] "7"
        = (-1, [("3", ⟨false, true, 5, 0, "hooks", "beep", 3, false⟩)]))
    ∧ ((hook_off [("3", ⟨false, true, 5, 0, "hooks", "beep", 3, false⟩)] "3").1 = 0
      ∧ datastore_find
          (hook_off [("3", ⟨false, true, 5, 0, "hooks", "beep", 3, false⟩)] "3").2 "3"
        = some ⟨false, true, 5, 0, "hooks", "beep", 3, true⟩
      ∧ (hook_re_enable [("3", ⟨false, true, 5, 0, "hooks", "beep", 3, false⟩)] "3").1 = 0
      ∧ datastore_find
          (hook_re_enable [("3", ⟨false, true, 5, 0, "hooks", "beep", 3, false⟩)] "3").2 "3"
        = some ⟨false, true, 5, 0, "hooks", "beep", 3, false⟩) :=
  ⟨(hook_toggle_not_found_and_found
      [("3", ⟨false, true, 5, 0, "hooks", "beep", 3, false⟩)] "7").1 (Or.inr (by decide)),
   (hook_toggle_not_found_and_found
      [("3", ⟨false, true, 5, 0, "hooks", "beep", 3, false⟩)] "3").2
      ⟨false, true, 5, 0, "hooks", "beep", 3, false⟩ (by decide) (by decide)⟩

/-- C7: a successful disable only flips the `disabled` flag of the targeted
hook: the return value is 0, the datastore keys are unchanged (nothing is
removed from session storage), the stored state keeps its audiohook status
and attachment, its id, interval, last fire time, context and extension, and
every entry under a different key is untouched. -/
theorem hook_off_only_flips_disabled (chan : Channel) (uid : String) (s : HookState)
    (h0 : uid ≠ "") (h1 : datastore_find chan uid = some s) :
    (hook_off chan uid).1 = 0
    ∧ ((hook_off chan uid).2).map Prod.fst = chan.map Prod.fst
    ∧ datastore_find (hook_off chan uid).2 uid =
        some { statusDone := s.statusDone, attached := s.attached,
               interval := s.interval, last_hook := s.last_hook,
               hook_context := s.hook_context, hook_exten := s.hook_exten,
               hook_id := s.hook_id, disabled := true }
    ∧ ∀ (k : String) (t : HookState), k ≠ uid →
        ((k, t) ∈ chan ↔ (k, t) ∈ (hook_off chan uid).2) := by
  rw [hook_off_found chan uid s h0 h1]
  dsimp only
  refine ⟨rfl, set_state_first_keys chan uid _, ?_, ?_⟩
  · rw [datastore_find_set_state_first, h1]
    rfl
  · intro k t hk
    exact (set_state_first_mem chan uid _ k t hk).symm

/-- Witness for the C7 theorem at a concrete input: disabling hook "5" on a
channel holding hooks "5" and "8". -/
theorem hook_off_only_flips_disabled_witness :
    (hook_off [("5", ⟨false, true, 7, 42, "hooks", "beep", 5, false⟩),
        ("8", ⟨false, true, 9, 17, "hooks", "beep", 8, false⟩)] "5").1 = 0
    ∧ ((hook_off [("5", ⟨false, true, 7, 42, "hooks", "beep", 5, false⟩),
        ("8", ⟨false, true, 9, 17, "hooks", "beep", 8, false⟩)] "5").2).map Prod.fst
      = [("5", (⟨false, true, 7, 42, "hooks", "beep", 5, false⟩ : HookState)),
        ("8", ⟨false, true, 9, 17, "hooks", "beep", 8, false⟩)].map Prod.fst
    ∧ datastore_find
        (hook_off [("5", ⟨false, true, 7, 42, "hooks", "beep", 5, false⟩),
          ("8", ⟨false, true, 9, 17, "hooks", "beep", 8, false⟩)] "5").2 "5"
      = some ⟨false, true, 7, 42, "hooks", "beep", 5, true⟩
    ∧ (("8", (⟨false, true, 9, 17, "hooks", "beep", 8, false⟩ : HookState))
          ∈ [("5", (⟨false, true, 7, 42, "hooks", "beep", 5, false⟩ : HookState)),
            ("8", ⟨false, true, 9, 17, "hooks", "beep", 8, false⟩)]
        ↔ ("8", (⟨false, true, 9, 17, "hooks", "beep", 8, false⟩ : HookState))
          ∈ (hook_off [("5", ⟨false, true, 7, 42, "hooks", "beep", 5, false⟩),
            ("8", ⟨false, true, 9, 17, "hooks", "beep", 8, false⟩)] "5").2) :=
  ⟨(hook_off_only_flips_disabled
      [("5", ⟨false, true, 7, 42, "hooks", "beep", 5, false⟩),
        ("8", ⟨false, true, 9, 17, "hooks", "beep", 8, false⟩)] "5"
      ⟨false, true, 7, 42, "hooks", "beep", 5, false⟩ (by decide) (by decide)).1,
   (hook_off_only_flips_disabled
      [("5", ⟨false, true, 7, 42, "hooks", "beep", 5, false⟩),
        ("8", ⟨false, true, 9, 17, "hooks", "beep", 8, false⟩)] "5"
      ⟨false, true, 7, 42, "hooks", "beep", 5, false⟩ (by decide) (by decide)).2.1,
   (hook_off_only_flips_disabled
      [("5", ⟨false, true, 7, 42, "hooks", "beep", 5, false⟩),
        ("8", ⟨false, true, 9, 17, "hooks", "beep", 8, false⟩)] "5"
      ⟨false, true, 7, 42, "hooks", "beep", 5, false⟩ (by decide) (by decide)).2.2.1,
   (hook_off_only_flips_disabled
      [("5", ⟨false, true, 7, 42, "hooks", "beep", 5, false⟩),
        ("8", ⟨false, true, 9, 17, "hooks", "beep", 8, false⟩)] "5"
      ⟨false, true, 7, 42, "hooks", "beep", 5, false⟩ (by decide) (by decide)).2.2.2
      "8" ⟨false, true, 9, 17, "hooks", "beep", 8, false⟩ (by decide)⟩

theorem hook_on_fail_snd (chan : Channel) (data : String) (hook_id : Nat)
    (h : (hook_on chan data hook_id).1 = -1) :
    (hook_on chan data hook_id).2 = chan := by
  cases hscan : scan_u30 ((app_args data).getD 2 "") with
  | none => rw [hook_on_scan_none chan data hook_id hscan]
  | some k =>
    rw [hook_on_scan_some chan data hook_id k hscan] at h ⊢
    by_cases hk : k = 0
    · rw [if_pos hk]
    · rw [if_neg hk] at h ⊢
      by_cases hce : (app_args data).getD 0 "" = "" ∨ (app_args data).getD 1 "" = ""
      · rw [if_pos hce]
      · rw [if_neg hce] at h
        exact absurd h (by simp [init_hook])

/-- C10: every `hook_read` call on a non-NULL channel increments the global
hook id counter (modulo 2^32) and writes the consumed id in decimal into the
output buffer, both unconditionally -- in particular, when the arguments are
invalid the call still returns -1 with the channel unchanged while the id has
been consumed and written. -/
theorem hook_read_consumes_id_before_validation (g : Nat) (chan : Channel)
    (data : String) (len : Nat) :
    (hook_read g (some chan) data len).gid = (g + 1) % U32
    ∧ (hook_read g (some chan) data len).buf
        = some ⟨(Nat.repr g).toList.take (len - 1)⟩
    ∧ ((hook_on chan data g).1 = -1 →
        (hook_read g (some chan) data len).res = -1
        ∧ (hook_read g (some chan) data len).chan = some chan) := by
  refine ⟨rfl, rfl, fun h => ⟨h, ?_⟩⟩
  rw [show (hook_read g (some chan) data len).chan = some (hook_on chan data g).2 from rfl,
    hook_on_fail_snd chan data g h]

/-- Witness for the C10 theorem at a concrete input: an empty argument string
is invalid, yet id 7 is consumed and written into the buffer. -/
theorem hook_read_consumes_id_before_validation_witness :
    (hook_read 7 (some []) "" 4).gid = (7 + 1) % U32
    ∧ (hook_read 7 (some []) "" 4).buf = some ⟨(Nat.repr 7).toList.take 3⟩
    ∧ ((hook_read 7 (some []) "" 4).res = -1
        ∧ (hook_read 7 (some []) "" 4).chan = some []) :=
  ⟨(hook_read_consumes_id_before_validation 7 [] "" 4).1,
   (hook_read_consumes_id_before_validation 7 [] "" 4).2.1,
   (hook_read_consumes_id_before_validation 7 [] "" 4).2.2 (by decide)⟩

theorem run_creates_eq (data : String) (len : Nat) :
    ∀ (n g : Nat) (chan : Channel), g < U32 →
      run_creates g chan data len n = (List.range n).map fun i => (g + i) % U32 := by
  intro n
  induction n with
  | zero =>
    intro g chan hg
    rfl
  | succ n ih =>
    intro g chan hg
    rw [run_creates]
    rw [show (hook_read g (some chan) data len).gid = (g + 1) % U32 from rfl]
    rw [ih ((g + 1) % U32) _ (Nat.mod_lt _ (by norm_num [U32]))]
    rw [List.range_succ_eq_map]
    simp only [List.map_cons, List.map_map, Function.comp]
    refine congrArg₂ _ (Nat.mod_eq_of_lt hg).symm ?_
    refine List.map_congr_left ?_
    intro i hi
    show ((g + 1) % U32 + i) % U32 = (g + (i + 1)) % U32
    rw [Nat.mod_add_mod, Nat.add_assoc, Nat.add_comm 1 i]

theorem run_creates_pairwise (data : String) (len g : Nat) (chan : Channel)
    (n : Nat) (hg : g < U32) (hn : n ≤ U32) :
    (run_creates g chan data len n).Pairwise Ne := by
  rw [run_creates_eq data len n g chan hg, List.pairwise_map]
  refine (List.pairwise_lt_range n).imp_of_mem ?_
  intro i j hi hj hij heq
  have hdvd : U32 ∣ j - i :=
    (Nat.modEq_iff_dvd' (le_of_lt hij)).mp (Nat.ModEq.add_left_cancel' g heq)
  have hlt : j - i < U32 :=
    lt_of_le_of_lt (Nat.sub_le j i) (lt_of_lt_of_le (List.mem_range.mp hj) hn)
  have hz : j - i = 0 := Nat.eq_zero_of_dvd_of_lt hdvd hlt
  omega

/-- C8: iterating `hook_read`, each call consumes the current counter value
and leaves the counter incremented modulo 2^32, so the consumed hook ids of
`n` successive calls are `g, g+1, ...` modulo 2^32 and are pairwise distinct
as long as the counter does not wrap (`n` at most 2^32). -/
theorem create_ids_pairwise_distinct (g : Nat) (chan : Channel) (data : String)
    (len n : Nat) (hg : g < U32) (hn : n ≤ U32) :
    run_creates g chan data len n = ((List.range n).map fun i => (g + i) % U32)
    ∧ (run_creates g chan data len n).Pairwise Ne
    ∧ (hook_read g (some chan) data len).gid = (g + 1) % U32 :=
  ⟨run_creates_eq data len n g chan hg,
   run_creates_pairwise data len g chan n hg hn, rfl⟩

/-- Witness for the C8 theorem at a concrete input: three creations starting
from counter 0 consume the distinct ids 0, 1, 2. -/
theorem create_ids_pairwise_distinct_witness :
    run_creates 0 [] "" 2 3 = ((List.range 3).map fun i => (0 + i) % U32)
    ∧ (run_creates 0 [] "" 2 3).Pairwise Ne
    ∧ (hook_read 0 (some []) "" 2).gid = (0 + 1) % U32 :=
  create_ids_pairwise_distinct 0 [] "" 2 3 (by decide) (by decide)

end FuncPeriodicHook
